import Mathlib

/-! Shallow embedding of the service worker `src/Sw.js` (an edge-resident
request interceptor): versioned cache generations, the install-time
preloader, the activation-time generation pruner, and the per-request
routing engine (navigation / API / static strategies).

Modelling conventions:
* A request is its method, URL (the code only ever inspects the URL path,
  so the URL is modelled as its path string), mode, destination and
  `accept` header.
* The network (`fetch`) is an oracle `Request → Option Response`;
  `none` models a transport-level rejection of the fetch promise.
* The cache store (`caches`) is an ordered list of named generations,
  each an association list from RequestIdentity `(method, url)` to a
  stored response.  `caches.match` scans generations in creation order;
  `cache.put` overwrites an existing entry for the identity (last write
  wins) and `caches.open` creates a missing generation at the end.
* The fetch handler returns the result delivered to the caller
  (`passthrough` when the handler returns without calling `respondWith`,
  `resp r` for a Response-shaped result, `failure` when the promise given
  to `respondWith` resolves with no response, i.e. the propagated network
  failure the page observes), together with the store after the
  fire-and-forget writes settle, and counters of the external operations
  performed (network calls, cache lookups, cache writes).
-/

/-- A response as the handler sees it: HTTP status, status text, headers,
body (`none` models a null body) and the response type string
(the value is the string `opaque` for cross-origin opaque responses). -/
structure Response where
  status : Nat
  statusText : String
  headers : List (String × String)
  body : Option String
  resType : String
  deriving DecidableEq

/-- An intercepted request: method, URL (its path), mode
(the string `navigate` for top-level document loads), destination
(the string `image` for image loads) and the `accept` header if present. -/
structure Request where
  method : String
  url : String
  mode : String
  destination : String
  accept : Option String
  deriving DecidableEq

/-- RequestIdentity: the (method, URL) pair used as the cache key. -/
abbrev Ident := String × String

/-- One generation ("bucket"): an association list RequestIdentity ↦ StoredResponse. -/
abbrev Generation := List (Ident × Response)

/-- The cache store: named generations, in creation order. -/
abbrev CacheStore := List (String × Generation)

/-- Source line `const CACHE_VERSION = 'v1.0.0'`. -/
def CACHE_VERSION : String := "v1.0.0"

/-- Name of the current static generation, `static-${CACHE_VERSION}`. -/
def STATIC_CACHE : String := "static-" ++ CACHE_VERSION

/-- Name of the current runtime generation, `runtime-${CACHE_VERSION}`. -/
def RUNTIME_CACHE : String := "runtime-" ++ CACHE_VERSION

/-- The preload manifest `STATIC_ASSETS`. -/
def STATIC_ASSETS : List String :=
  ["/", "/index.html", "/offline.html", "/styles/main.css",
   "/scripts/main.js", "/manifest.json",
   "/icons/icon-192x192.png", "/icons/icon-512x512.png"]

/-- The RequestIdentity of a request. -/
def ident (r : Request) : Ident := (r.method, r.url)

/-- Lookup of an identity inside one generation (entries are kept unique
per key by `putInGen`). -/
def genLookup : Generation → Ident → Option Response
  | [], _ => none
  | e :: rest, k => if e.1 = k then some e.2 else genLookup rest k

/-- Models `cache.put`: overwrite the entry for the identity if present,
otherwise append it (last write wins). -/
def putInGen : Generation → Ident → Response → Generation
  | [], k, r => [(k, r)]
  | e :: rest, k, r => if e.1 = k then (k, r) :: rest else e :: putInGen rest k r

/-- Models `caches.match`: scan the generations in order, returning the
first stored response found for the identity. -/
def cachesMatch : CacheStore → Ident → Option Response
  | [], _ => none
  | g :: rest, k =>
    match genLookup g.2 k with
    | some r => some r
    | none => cachesMatch rest k

/-- Models `caches.open(name)` followed by `cache.put(k, r)`: update the
named generation if it exists (names are unique), otherwise create it at
the end of the store. -/
def cachePut : CacheStore → String → Ident → Response → CacheStore
  | [], name, k, r => [(name, putInGen [] k r)]
  | g :: rest, name, k, r =>
    if g.1 = name then (g.1, putInGen g.2 k r) :: rest
    else g :: cachePut rest name k r

/-- Models `caches.delete(name)`. -/
def cachesDelete (s : CacheStore) (name : String) : CacheStore :=
  s.filter (fun g => ¬ g.1 = name)

/-- Models `caches.keys()`: the generation names present, in order. -/
def namesOf (s : CacheStore) : List String := s.map Prod.fst

/-- The contents of the named generation, if it exists. -/
def getGen : CacheStore → String → Option Generation
  | [], _ => none
  | g :: rest, n => if g.1 = n then some g.2 else getGen rest n

/-- Lookup restricted to one named generation. -/
def lookupInGen (s : CacheStore) (name : String) (k : Ident) : Option Response :=
  match getGen s name with
  | some g => genLookup g k
  | none => none

/-- Models the JS `String.prototype.startsWith` over character lists. -/
def strStartsWith (s pre : String) : Bool := List.isPrefixOf pre.toList s.toList

/-- Occurrence of one character sequence inside another, at any position. -/
def containsSeq : List Char → List Char → Bool
  | needle, [] => needle.isEmpty
  | needle, c :: rest => List.isPrefixOf needle (c :: rest) || containsSeq needle rest

/-- Models the JS `String.prototype.includes`. -/
def includesSubstr (s pat : String) : Bool := containsSeq pat.toList s.toList

/-- Models the test on source line 109: the `accept` header is present,
truthy (an absent header and the falsy empty string fail) and includes the
substring `text/html`. -/
def acceptIncludesHTML (r : Request) : Bool :=
  match r.accept with
  | some a => includesSubstr a ("text/html")
  | none => false

/-- Models `new Response(null, { status: 504, statusText: 'Gateway Timeout' })`. -/
def response504 : Response :=
  ⟨504, "Gateway Timeout", [], none, "default"⟩

/-- What the caller of an intercepted fetch receives. -/
inductive HandlerResult where
  /-- The handler returned without calling `respondWith` (non-GET):
  the request goes to the network unmodified. -/
  | passthrough
  /-- The promise given to `respondWith` resolved with a Response-shaped
  result. -/
  | resp (r : Response)
  /-- The promise given to `respondWith` resolved with no response:
  the caller observes the propagated network failure. -/
  | failure
  deriving DecidableEq

/-- Result of one run of the fetch handler: the result delivered, the
cache store after the fire-and-forget writes of this handler settle, and
counters of the external operations performed while handling this
request. -/
structure HandleOutcome where
  result : HandlerResult
  store : CacheStore
  netCalls : Nat
  cacheLookups : Nat
  cacheWrites : Nat
  deriving DecidableEq

/-- The fetch handler of `src/Sw.js` (lines 48 to 116): method filter,
then the navigation / API / static strategies, in that priority order. -/
def handleFetch (net : Request → Option Response) (store : CacheStore)
    (req : Request) : HandleOutcome :=
  if req.method ≠ "GET" then
    ⟨HandlerResult.passthrough, store, 0, 0, 0⟩
  else if req.mode = "navigate" then
    match net req with
    | some res =>
      ⟨HandlerResult.resp res, cachePut store RUNTIME_CACHE (ident req) res, 1, 0, 1⟩
    | none =>
      match cachesMatch store (ident req) with
      | some cached => ⟨HandlerResult.resp cached, store, 1, 1, 0⟩
      | none =>
        match cachesMatch store ("GET", "/offline.html") with
        | some off => ⟨HandlerResult.resp off, store, 1, 2, 0⟩
        | none => ⟨HandlerResult.failure, store, 1, 2, 0⟩
  else if strStartsWith req.url ("/api/") then
    match net req with
    | some res =>
      ⟨HandlerResult.resp res, cachePut store RUNTIME_CACHE (ident req) res, 1, 0, 1⟩
    | none =>
      match cachesMatch store (ident req) with
      | some cached => ⟨HandlerResult.resp cached, store, 1, 1, 0⟩
      | none => ⟨HandlerResult.failure, store, 1, 1, 0⟩
  else
    match cachesMatch store (ident req) with
    | some cached => ⟨HandlerResult.resp cached, store, 0, 1, 0⟩
    | none =>
      match net req with
      | some res =>
        if res.status = 200 ∧ res.resType ≠ "opaque" then
          ⟨HandlerResult.resp res, cachePut store RUNTIME_CACHE (ident req) res, 1, 1, 1⟩
        else
          ⟨HandlerResult.resp res, store, 1, 1, 0⟩
      | none =>
        if req.destination = "image" then
          match cachesMatch store ("GET", "/icons/icon-192x192.png") with
          | some img => ⟨HandlerResult.resp img, store, 1, 2, 0⟩
          | none => ⟨HandlerResult.failure, store, 1, 2, 0⟩
        else if acceptIncludesHTML req then
          match cachesMatch store ("GET", "/offline.html") with
          | some off => ⟨HandlerResult.resp off, store, 1, 2, 0⟩
          | none => ⟨HandlerResult.failure, store, 1, 2, 0⟩
        else
          ⟨HandlerResult.resp response504, store, 1, 1, 0⟩

/-- The activate handler (lines 29 to 40): enumerate the generation names,
keep those equal to a current generation name, delete every other one. -/
def activate (s : CacheStore) : CacheStore :=
  ((namesOf s).filter (fun key => key ≠ STATIC_CACHE ∧ key ≠ RUNTIME_CACHE)).foldl
    cachesDelete s

/-- Fetch every manifest URL; fail the whole batch if any one fails
(the all-or-nothing contract of `cache.addAll`). -/
def fetchAssets (net : Request → Option Response) :
    List String → Option (List (String × Response))
  | [] => some []
  | u :: rest =>
    match net ⟨"GET", u, "no-cors", "", none⟩ with
    | some r => (fetchAssets net rest).map (fun tail => (u, r) :: tail)
    | none => none

/-- The install handler (lines 20 to 27): `caches.open(STATIC_CACHE)`
followed by `cache.addAll(STATIC_ASSETS)`; on any fetch failure nothing is
committed. -/
def install (net : Request → Option Response) (store : CacheStore) : Option CacheStore :=
  match fetchAssets net STATIC_ASSETS with
  | none => none
  | some entries =>
    some (entries.foldl (fun s er => cachePut s STATIC_CACHE ("GET", er.1) er.2) store)

/-- A network that is down for every request. -/
def netFail : Request → Option Response := fun _ => none

/-- A cacheable response: status 200, non-opaque type. -/
def res200 : Response := ⟨200, "OK", [], some "hello", "basic"⟩

/-- An uncacheable response: status 404 and opaque type. -/
def resUncacheable : Response := ⟨404, "Not Found", [], some "missing", "opaque"⟩

/-- A stored copy of the offline fallback document. -/
def resOffline : Response := ⟨200, "OK", [], some "you are offline", "basic"⟩

/-- A stored copy of the placeholder icon. -/
def resIcon : Response := ⟨200, "OK", [], some "icon bytes", "basic"⟩

/-- A network that answers every request with `res200`. -/
def netAlways200 : Request → Option Response := fun _ => some res200

/-- A network that answers every request with `resUncacheable`. -/
def netAlwaysUncacheable : Request → Option Response := fun _ => some resUncacheable

/-- A GET request for `/api/users` (API class). -/
def reqApiUsers : Request := ⟨"GET", "/api/users", "cors", "", none⟩

/-- A navigation GET request for the root document. -/
def reqNavHome : Request := ⟨"GET", "/", "navigate", "document", some "text/html"⟩

/-- A static-class GET request for a stylesheet. -/
def reqCss : Request := ⟨"GET", "/styles/main.css", "no-cors", "style", none⟩

/-- A static-class GET request whose identity is preloaded in `storePreloaded`. -/
def reqOffline : Request := ⟨"GET", "/offline.html", "no-cors", "document", some "text/html"⟩

/-- A POST request (not intercepted). -/
def reqPost : Request := ⟨"POST", "/api/users", "cors", "", none⟩

/-- A static-class GET request with destination image. -/
def reqImg : Request := ⟨"GET", "/photos/me.png", "no-cors", "image", none⟩

/-- A store whose static generation holds the offline document and the
placeholder icon. -/
def storePreloaded : CacheStore :=
  [(STATIC_CACHE,
    [(("GET", "/offline.html"), resOffline),
     (("GET", "/icons/icon-192x192.png"), resIcon)])]

/-- A store holding the current static generation and one stale generation,
but no runtime generation. -/
def staleStore : CacheStore := [(STATIC_CACHE, []), ("static-v0.9.0", [])]

/-- The store produced by a successful install over `netAlways200`. -/
def installedStore : CacheStore := (install netAlways200 []).getD []

theorem genLookup_putInGen_self (g : Generation) (k : Ident) (r : Response) :
    genLookup (putInGen g k r) k = some r := by
  induction g with
  | nil => simp [putInGen, genLookup]
  | cons e rest ih =>
    by_cases h : e.1 = k
    · simp [putInGen, h, genLookup]
    · simp [putInGen, h, genLookup, ih]

theorem cachesMatch_cachePut_of_miss (s : CacheStore) (name : String) (k : Ident)
    (r : Response) (h : cachesMatch s k = none) :
    cachesMatch (cachePut s name k r) k = some r := by
  induction s with
  | nil => simp [cachePut, cachesMatch, genLookup_putInGen_self]
  | cons g rest ih =>
    simp only [cachesMatch] at h
    cases hgl : genLookup g.2 k with
    | some r2 => simp [hgl] at h
    | none =>
      simp only [hgl] at h
      by_cases hn : g.1 = name
      · simp [cachePut, hn, cachesMatch, genLookup_putInGen_self]
      · simp [cachePut, hn, cachesMatch, hgl, ih h]

theorem lookupInGen_cachePut_self (s : CacheStore) (name : String) (k : Ident)
    (r : Response) :
    lookupInGen (cachePut s name k r) name k = some r := by
  induction s with
  | nil => simp [cachePut, lookupInGen, getGen, genLookup_putInGen_self]
  | cons g rest ih =>
    by_cases hn : g.1 = name
    · simp [cachePut, hn, lookupInGen, getGen, genLookup_putInGen_self]
    · simpa [cachePut, hn, lookupInGen, getGen] using ih

theorem getGen_cachePut_ne (s : CacheStore) (name n : String) (k : Ident) (r : Response)
    (h : n ≠ name) : getGen (cachePut s name k r) n = getGen s n := by
  induction s with
  | nil => simp [cachePut, getGen, Ne.symm h]
  | cons g rest ih =>
    by_cases hn : g.1 = name
    · simp [cachePut, hn, getGen, Ne.symm h]
    · simp [cachePut, hn, getGen, ih]

theorem mem_namesOf_cachesDelete (s : CacheStore) (name n : String) :
    n ∈ namesOf (cachesDelete s name) ↔ n ∈ namesOf s ∧ n ≠ name := by
  simp only [namesOf, cachesDelete, List.mem_map, List.mem_filter]
  constructor
  · rintro ⟨g, ⟨hg, hne⟩, rfl⟩
    exact ⟨⟨g, hg, rfl⟩, by simpa using hne⟩
  · rintro ⟨⟨g, hg, rfl⟩, hne⟩
    exact ⟨g, ⟨hg, by simpa using hne⟩, rfl⟩

theorem mem_namesOf_foldl_delete (keys : List String) (s : CacheStore) (n : String) :
    n ∈ namesOf (keys.foldl cachesDelete s) ↔ n ∈ namesOf s ∧ n ∉ keys := by
  induction keys generalizing s with
  | nil => simp
  | cons k ks ih =>
    rw [List.foldl_cons, ih, mem_namesOf_cachesDelete]
    constructor
    · rintro ⟨⟨h1, h2⟩, h3⟩
      exact ⟨h1, by simp [h2, h3]⟩
    · rintro ⟨h1, h2⟩
      simp only [List.mem_cons, not_or] at h2
      exact ⟨⟨h1, h2.1⟩, h2.2⟩

theorem handleFetch_store_shape (net : Request → Option Response) (store : CacheStore)
    (req : Request) :
    (handleFetch net store req).store = store ∨
    ∃ res, (handleFetch net store req).store = cachePut store RUNTIME_CACHE (ident req) res := by
  unfold handleFetch
  repeat' split
  all_goals first
    | exact Or.inl rfl
    | exact Or.inr ⟨_, rfl⟩

theorem getGen_foldl_cachePut_ne (entries : List (String × Response)) (s : CacheStore)
    (n : String) (h : n ≠ STATIC_CACHE) :
    getGen (entries.foldl (fun acc er => cachePut acc STATIC_CACHE ("GET", er.1) er.2) s) n
      = getGen s n := by
  induction entries generalizing s with
  | nil => rfl
  | cons e rest ih => rw [List.foldl_cons, ih, getGen_cachePut_ne _ _ _ _ _ h]

/-- C1: for an API-classified GET request (not a navigation, URL beginning
with `/api/`), when the network fetch fails and no cached entry exists for
the identity of the request, the caller receives the propagated network
failure: not any Response-shaped result, so in particular neither a
synthesized 504 nor the offline fallback document. -/
theorem api_failure_no_cache_propagates (net : Request → Option Response)
    (store : CacheStore) (req : Request)
    (hg : req.method = "GET") (hnav : req.mode ≠ "navigate")
    (hapi : strStartsWith req.url ("/api/") = true)
    (hnet : net req = none) (hmiss : cachesMatch store (ident req) = none) :
    (handleFetch net store req).result = HandlerResult.failure ∧
    ∀ r, (handleFetch net store req).result ≠ HandlerResult.resp r := by
  unfold handleFetch
  simp [hg, hnav, hapi, hnet, hmiss]

theorem api_failure_no_cache_propagates_witness :
    reqApiUsers.method = "GET" ∧ reqApiUsers.mode ≠ "navigate" ∧
    strStartsWith reqApiUsers.url ("/api/") = true ∧
    netFail reqApiUsers = none ∧ cachesMatch [] (ident reqApiUsers) = none ∧
    (handleFetch netFail [] reqApiUsers).result = HandlerResult.failure :=
  ⟨rfl, by decide, by decide, rfl, rfl,
    (api_failure_no_cache_propagates netFail [] reqApiUsers rfl (by decide) (by decide)
      rfl rfl).1⟩

/-- C2 counterexample: a GET request (for `/api/users`, network down, empty
cache) whose delivered result is the propagated failure, which is not a
Response-shaped result and not the synthesized 504 marker: so not every
intercepted GET request receives a Response-shaped result or the 504
marker. -/
theorem get_request_may_observe_raw_failure :
    reqApiUsers.method = "GET" ∧
    (handleFetch netFail [] reqApiUsers).result = HandlerResult.failure ∧
    ∀ r : Response, HandlerResult.failure ≠ HandlerResult.resp r :=
  ⟨rfl, rfl, fun _ h => nomatch h⟩

/-- C2 (amended): every intercepted GET request receives exactly one result,
either a Response-shaped result (which includes the synthesized 504 marker)
or the propagated network failure (possible when the network fails and no
applicable cache entry exists); non-GET requests pass through unmodified. -/
theorem get_result_response_or_propagated (net : Request → Option Response)
    (store : CacheStore) (req : Request) :
    (req.method = "GET" →
      (∃ r, (handleFetch net store req).result = HandlerResult.resp r) ∨
      (handleFetch net store req).result = HandlerResult.failure) ∧
    (req.method ≠ "GET" →
      (handleFetch net store req).result = HandlerResult.passthrough) := by
  constructor
  · intro hg
    unfold handleFetch
    rw [if_neg (fun h => h hg)]
    repeat' split
    all_goals first
      | exact Or.inl ⟨_, rfl⟩
      | exact Or.inr rfl
  · intro hm
    unfold handleFetch
    rw [if_pos hm]

theorem get_result_response_or_propagated_witness :
    (∃ r, (handleFetch netAlways200 [] reqNavHome).result = HandlerResult.resp r) ∨
    (handleFetch netAlways200 [] reqNavHome).result = HandlerResult.failure :=
  (get_result_response_or_propagated netAlways200 [] reqNavHome).1 rfl

/-- C3 counterexample: a store holding the current static generation and one
stale generation, but no runtime generation. Activation deletes the stale
generation but creates nothing, so the set of names present afterwards is
`[STATIC_CACHE]` and does not contain the current runtime name: it is not
the claimed exact pair. -/
theorem activation_does_not_create_runtime :
    namesOf (activate staleStore) = [STATIC_CACHE] ∧
    RUNTIME_CACHE ∉ namesOf (activate staleStore) := by
  constructor
  · rfl
  · decide

/-- C3 (amended): activation enumerates the generation names, deletes every
name different from both current names, and keeps the rest: a name is
present after activation iff it was present before and is the current
static or the current runtime name. (Activation never creates a
generation, so a current generation absent beforehand is still absent.) -/
theorem activation_prunes_to_current_generations (s : CacheStore) (n : String) :
    n ∈ namesOf (activate s) ↔
      n ∈ namesOf s ∧ (n = STATIC_CACHE ∨ n = RUNTIME_CACHE) := by
  unfold activate
  rw [mem_namesOf_foldl_delete]
  simp only [List.mem_filter, decide_eq_true_eq]
  tauto

/-- C4: for a static-classified GET request served from the network (cache
miss, fetch success): a status-200 non-opaque response is stored and is
retrievable from cache on the immediately following request for the same
identity, while an opaque or non-200 response is returned as-is and is not
found in the cache afterwards. -/
theorem static_success_cacheability (net : Request → Option Response)
    (store : CacheStore) (req : Request) (res : Response)
    (hg : req.method = "GET") (hnav : req.mode ≠ "navigate")
    (hapi : strStartsWith req.url ("/api/") = false)
    (hmiss : cachesMatch store (ident req) = none)
    (hnet : net req = some res) :
    (res.status = 200 → res.resType ≠ "opaque" →
      (handleFetch net store req).result = HandlerResult.resp res ∧
      cachesMatch (handleFetch net store req).store (ident req) = some res ∧
      (handleFetch net (handleFetch net store req).store req).result
        = HandlerResult.resp res) ∧
    (¬ (res.status = 200 ∧ res.resType ≠ "opaque") →
      (handleFetch net store req).result = HandlerResult.resp res ∧
      cachesMatch (handleFetch net store req).store (ident req) = none) := by
  constructor
  · intro h200 hop
    have key : handleFetch net store req =
        ⟨HandlerResult.resp res, cachePut store RUNTIME_CACHE (ident req) res, 1, 1, 1⟩ := by
      unfold handleFetch
      simp [hg, hnav, hapi, hmiss, hnet, h200, hop]
    have hput := cachesMatch_cachePut_of_miss store RUNTIME_CACHE (ident req) res hmiss
    rw [key]
    refine ⟨rfl, hput, ?_⟩
    unfold handleFetch
    simp [hg, hnav, hapi, hput]
  · intro hnc
    unfold handleFetch
    simp [hg, hnav, hapi, hmiss, hnet, hnc]

theorem static_success_cacheability_witness :
    cachesMatch [] (ident reqCss) = none ∧ netAlways200 reqCss = some res200 ∧
    res200.status = 200 ∧ res200.resType ≠ "opaque" ∧
    ((handleFetch netAlways200 [] reqCss).result = HandlerResult.resp res200 ∧
     cachesMatch (handleFetch netAlways200 [] reqCss).store (ident reqCss) = some res200 ∧
     (handleFetch netAlways200 (handleFetch netAlways200 [] reqCss).store reqCss).result
       = HandlerResult.resp res200) :=
  ⟨rfl, rfl, rfl, by decide,
    (static_success_cacheability netAlways200 [] reqCss res200 rfl (by decide) (by decide)
      rfl rfl).1 rfl (by decide)⟩

/-- C5: for a static-classified GET request whose identity has a cached
entry, the cached entry is returned, the network is never contacted, and
the store is unchanged. -/
theorem static_cache_hit_no_network (net : Request → Option Response)
    (store : CacheStore) (req : Request) (cached : Response)
    (hg : req.method = "GET") (hnav : req.mode ≠ "navigate")
    (hapi : strStartsWith req.url ("/api/") = false)
    (hhit : cachesMatch store (ident req) = some cached) :
    (handleFetch net store req).result = HandlerResult.resp cached ∧
    (handleFetch net store req).netCalls = 0 ∧
    (handleFetch net store req).store = store := by
  unfold handleFetch
  simp [hg, hnav, hapi, hhit]

theorem static_cache_hit_no_network_witness :
    cachesMatch storePreloaded (ident reqOffline) = some resOffline ∧
    (handleFetch netFail storePreloaded reqOffline).result = HandlerResult.resp resOffline ∧
    (handleFetch netFail storePreloaded reqOffline).netCalls = 0 ∧
    (handleFetch netFail storePreloaded reqOffline).store = storePreloaded :=
  ⟨rfl, static_cache_hit_no_network netFail storePreloaded reqOffline resOffline rfl
    (by decide) (by decide) rfl⟩

/-- C6: for a navigation-classified GET request on which the network fetch
fails: a cached response for the identity of the request, if present in any
generation, is returned verbatim; otherwise the offline fallback document
`/offline.html` is returned from the cache. -/
theorem navigation_failure_fallback (net : Request → Option Response)
    (store : CacheStore) (req : Request)
    (hg : req.method = "GET") (hnav : req.mode = "navigate") (hnet : net req = none) :
    (∀ cached, cachesMatch store (ident req) = some cached →
      (handleFetch net store req).result = HandlerResult.resp cached) ∧
    (cachesMatch store (ident req) = none →
      ∀ off, cachesMatch store ("GET", "/offline.html") = some off →
        (handleFetch net store req).result = HandlerResult.resp off) := by
  constructor
  · intro cached hc
    unfold handleFetch
    simp [hg, hnav, hnet, hc]
  · intro hc off hoff
    unfold handleFetch
    simp [hg, hnav, hnet, hc, hoff]

theorem navigation_failure_fallback_witness :
    netFail reqNavHome = none ∧
    cachesMatch storePreloaded (ident reqNavHome) = none ∧
    cachesMatch storePreloaded ("GET", "/offline.html") = some resOffline ∧
    (handleFetch netFail storePreloaded reqNavHome).result = HandlerResult.resp resOffline :=
  ⟨rfl, rfl, rfl,
    (navigation_failure_fallback netFail storePreloaded reqNavHome rfl rfl rfl).2
      rfl resOffline rfl⟩

/-- C7: for a static-classified GET request on which the network fetch fails
(after a cache miss), the fallback order is: image destination gives the
cached placeholder image; otherwise an Accept header including HTML gives
the cached offline document; otherwise the synthesized 504 response with no
body. -/
theorem static_failure_fallback_order (net : Request → Option Response)
    (store : CacheStore) (req : Request)
    (hg : req.method = "GET") (hnav : req.mode ≠ "navigate")
    (hapi : strStartsWith req.url ("/api/") = false)
    (hmiss : cachesMatch store (ident req) = none) (hnet : net req = none) :
    (req.destination = "image" →
      ∀ img, cachesMatch store ("GET", "/icons/icon-192x192.png") = some img →
        (handleFetch net store req).result = HandlerResult.resp img) ∧
    (req.destination ≠ "image" → acceptIncludesHTML req = true →
      ∀ off, cachesMatch store ("GET", "/offline.html") = some off →
        (handleFetch net store req).result = HandlerResult.resp off) ∧
    (req.destination ≠ "image" → acceptIncludesHTML req = false →
      (handleFetch net store req).result = HandlerResult.resp response504 ∧
      response504.status = 504 ∧ response504.body = none) := by
  refine ⟨?_, ?_, ?_⟩
  · intro hdest img himg
    unfold handleFetch
    simp [hg, hnav, hapi, hmiss, hnet, hdest, himg]
  · intro hdest hacc off hoff
    unfold handleFetch
    simp [hg, hnav, hapi, hmiss, hnet, hdest, hacc, hoff]
  · intro hdest hacc
    unfold handleFetch
    refine ⟨?_, rfl, rfl⟩
    simp [hg, hnav, hapi, hmiss, hnet, hdest, hacc]

theorem static_failure_fallback_order_witness :
    cachesMatch storePreloaded (ident reqImg) = none ∧ netFail reqImg = none ∧
    reqImg.destination = "image" ∧
    cachesMatch storePreloaded ("GET", "/icons/icon-192x192.png") = some resIcon ∧
    (handleFetch netFail storePreloaded reqImg).result = HandlerResult.resp resIcon :=
  ⟨rfl, rfl, rfl, rfl,
    (static_failure_fallback_order netFail storePreloaded reqImg rfl (by decide) (by decide)
      rfl rfl).1 rfl resIcon rfl⟩

/-- C8: a request whose method is not GET is not intercepted: it passes
through to the network unmodified, with no cache lookup, no cache write and
an unchanged store. -/
theorem non_get_bypasses_cache (net : Request → Option Response)
    (store : CacheStore) (req : Request) (hm : req.method ≠ "GET") :
    (handleFetch net store req).result = HandlerResult.passthrough ∧
    (handleFetch net store req).store = store ∧
    (handleFetch net store req).cacheLookups = 0 ∧
    (handleFetch net store req).cacheWrites = 0 := by
  unfold handleFetch
  simp [hm]

theorem non_get_bypasses_cache_witness :
    reqPost.method ≠ "GET" ∧
    (handleFetch netAlways200 storePreloaded reqPost).result = HandlerResult.passthrough ∧
    (handleFetch netAlways200 storePreloaded reqPost).store = storePreloaded ∧
    (handleFetch netAlways200 storePreloaded reqPost).cacheLookups = 0 ∧
    (handleFetch netAlways200 storePreloaded reqPost).cacheWrites = 0 :=
  ⟨by decide, non_get_bypasses_cache netAlways200 storePreloaded reqPost (by decide)⟩

/-- C9: navigation-classified and API-classified GET requests write every
successful network response — including non-200 and opaque ones — into the
runtime generation with no cacheability check; only the static-classified
strategy filters writes, leaving the store untouched for a non-200 or
opaque response. -/
theorem nav_api_write_unconditional (net : Request → Option Response)
    (store : CacheStore) (req : Request) (res : Response)
    (hg : req.method = "GET") (hnet : net req = some res) :
    ((req.mode = "navigate" ∨ strStartsWith req.url ("/api/") = true) →
      lookupInGen (handleFetch net store req).store RUNTIME_CACHE (ident req) = some res) ∧
    (req.mode ≠ "navigate" → strStartsWith req.url ("/api/") = false →
      cachesMatch store (ident req) = none →
      ¬ (res.status = 200 ∧ res.resType ≠ "opaque") →
      (handleFetch net store req).store = store) := by
  constructor
  · intro hclass
    by_cases hnav : req.mode = "navigate"
    · unfold handleFetch
      simp [hg, hnav, hnet, lookupInGen_cachePut_self]
    · rcases hclass with h | hapi
      · exact absurd h hnav
      · unfold handleFetch
        simp [hg, hnav, hapi, hnet, lookupInGen_cachePut_self]
  · intro hnav hapi hmiss hnc
    unfold handleFetch
    simp [hg, hnav, hapi, hmiss, hnet, hnc]

theorem nav_api_write_unconditional_witness :
    netAlwaysUncacheable reqNavHome = some resUncacheable ∧
    resUncacheable.status ≠ 200 ∧ resUncacheable.resType = "opaque" ∧
    lookupInGen (handleFetch netAlwaysUncacheable [] reqNavHome).store RUNTIME_CACHE
      (ident reqNavHome) = some resUncacheable :=
  ⟨rfl, by decide, rfl,
    (nav_api_write_unconditional netAlwaysUncacheable [] reqNavHome resUncacheable rfl
      rfl).1 (Or.inl rfl)⟩

/-- C10: request handling never writes to the static generation — every
cache write performed by the fetch handler targets the runtime generation,
so the contents of the static generation are unchanged by any intercepted
request; and the install-time preload writes only the static generation,
leaving every other generation unchanged. -/
theorem static_generation_untouched (net net2 : Request → Option Response)
    (store store2 : CacheStore) (req : Request) :
    getGen (handleFetch net store req).store STATIC_CACHE = getGen store STATIC_CACHE ∧
    (∀ s2, install net2 store2 = some s2 →
      ∀ n, n ≠ STATIC_CACHE → getGen s2 n = getGen store2 n) := by
  constructor
  · rcases handleFetch_store_shape net store req with h | ⟨res, h⟩
    · rw [h]
    · rw [h, getGen_cachePut_ne _ _ _ _ _ (by decide)]
  · intro s2 hs2 n hn
    unfold install at hs2
    cases hfa : fetchAssets net2 STATIC_ASSETS with
    | none => rw [hfa] at hs2; cases hs2
    | some entries =>
      rw [hfa] at hs2
      simp only [Option.some.injEq] at hs2
      rw [← hs2]
      exact getGen_foldl_cachePut_ne entries store2 n hn

theorem static_generation_untouched_witness :
    install netAlways200 [] = some installedStore ∧
    getGen (handleFetch netAlways200 [] reqNavHome).store STATIC_CACHE
      = getGen ([] : CacheStore) STATIC_CACHE ∧
    getGen installedStore RUNTIME_CACHE = getGen ([] : CacheStore) RUNTIME_CACHE :=
  ⟨rfl,
    (static_generation_untouched netAlways200 netAlways200 [] [] reqNavHome).1,
    (static_generation_untouched netAlways200 netAlways200 [] [] reqNavHome).2
      installedStore rfl RUNTIME_CACHE (by decide)⟩
